import Mathlib

/-!
Verification of the generation/download coordination layer of the
`expo-gemma` package (`src/build/ExpoLlmMediapipeModule.js`, the example
app's local-model provider, and the chat example screen).

Each JavaScript function relevant to the frozen claims is shallowly
embedded as an executable Lean definition: event listeners become step
functions on explicit request states, a run of listener invocations
becomes a `List.foldl` over an event trace, and JS values that matter
(undefined/null/strings/numbers) are modelled by small inductive types.
-/

namespace ExpoGemma

/-! ## JS value fragments -/

/-- The fragment of JavaScript values an attachment's `uri` field can hold:
a string, `undefined`, `null`, or a number.  The source checks
`typeof attachment.uri === "string"`. -/
inductive JsVal where
  | str (s : String)
  | undef
  | nullv
  | num (n : Int)
deriving DecidableEq, Repr

/-- A JavaScript model-handle argument: `undefined`, `null`, or a number
(the TS type is `number`, but callers can pass `null`/`undefined`). -/
inductive JsHandle where
  | undef
  | nullv
  | num (n : Int)
deriving DecidableEq, Repr

/-- JS truthiness for a handle value: `undefined`, `null` and `0` are falsy. -/
def JsHandle.truthy : JsHandle → Bool
  | .undef => false
  | .nullv => false
  | .num n => n != 0

/-! ## Input normalization
(`normalizeGenerationInput`, `extractImageUris`, `mapGenerationInput`,
src/build/ExpoLlmMediapipeModule.js lines 4-30) -/

/-- A raw attachment object as supplied by the caller: a `type` field and a
`uri` field of arbitrary JS value. -/
structure RawAttachment where
  type : String
  uri : JsVal
deriving DecidableEq, Repr

/-- An attachment after `normalizeGenerationInput`'s filter: the uri is known
to be a string. -/
structure NormAttachment where
  type : String
  uri : String
deriving DecidableEq, Repr

/-- Caller input to a generation entry point: either a bare string prompt or
a structured `{prompt, attachments}` object whose attachments list may be
absent and whose entries may be null. -/
inductive GenInput where
  | text (s : String)
  | structured (prompt : String) (attachments : Option (List (Option RawAttachment)))
deriving DecidableEq, Repr

/-- Result of `normalizeGenerationInput`. -/
structure NormalizedInput where
  prompt : String
  attachments : Option (List NormAttachment)
deriving DecidableEq, Repr

/-- Result of `mapGenerationInput`, forwarded to the native call. -/
structure MappedInput where
  prompt : String
  imageUris : Option (List String)
deriving DecidableEq, Repr

/-- The filter predicate of `normalizeGenerationInput`:
`Boolean(attachment && typeof attachment.uri === "string" && attachment.uri.length > 0)`.
A surviving attachment is re-typed with its string uri. -/
def normalizeAttachment : Option RawAttachment → Option NormAttachment
  | none => none
  | some a =>
    match a.uri with
    | .str u => if u.length > 0 then some ⟨a.type, u⟩ else none
    | _ => none

/-- `normalizeGenerationInput` (lines 4-14): a bare string becomes
`{prompt: input}` (attachments absent); a structured input keeps its prompt
and filters its attachments, `undefined` staying `undefined` (the `?.`). -/
def normalizeGenerationInput : GenInput → NormalizedInput
  | .text s => { prompt := s, attachments := none }
  | .structured p atts =>
    { prompt := p, attachments := atts.map (fun l => l.filterMap normalizeAttachment) }

/-- `extractImageUris` (lines 15-23): `undefined` or empty attachments give
`undefined`; otherwise keep uris of attachments with `type === "image"` and
non-empty uri, and give `undefined` when that filter leaves nothing. -/
def extractImageUris : Option (List NormAttachment) → Option (List String)
  | none => none
  | some atts =>
    if atts.isEmpty then none
    else
      let imageUris := (atts.filter (fun a => a.type == "image" && a.uri.length > 0)).map (·.uri)
      if imageUris.isEmpty then none else some imageUris

/-- `mapGenerationInput` (lines 24-30). -/
def mapGenerationInput (input : GenInput) : MappedInput :=
  let normalized := normalizeGenerationInput input
  { prompt := normalized.prompt, imageUris := extractImageUris normalized.attachments }

/-- The single-pass characterization of which uris survive both filters:
non-null attachments whose uri is a non-empty string and whose type is
`"image"`. -/
def survivingImageUris (atts : List (Option RawAttachment)) : List String :=
  atts.filterMap (fun oa =>
    match oa with
    | none => none
    | some a =>
      match a.uri with
      | .str u => if u.length > 0 && a.type == "image" then some u else none
      | _ => none)

/-! ## Release idempotence
(`releaseModelHandle` in the example app's LocalModelProvider,
src/unnamed/part_003 lines 75-86) -/

/-- The provider state relevant to release: the `modelHandleRef` current
value and the list of handles passed to the native `releaseModel` call. -/
structure LocalModelState where
  handleRef : Option Nat
  nativeReleaseCalls : List Nat
deriving DecidableEq, Repr

/-- `releaseModelHandle`: if the ref holds a handle, null it out and issue
one native release (errors from the native call are caught and logged, so
the function never throws); otherwise do nothing. -/
def releaseModelHandle (s : LocalModelState) : LocalModelState :=
  match s.handleRef with
  | none => s
  | some h => { handleRef := none, nativeReleaseCalls := s.nativeReleaseCalls ++ [h] }

/-! ## Chat screen fallback
(`sendMessage` in src/example/src/screens/ChatExampleScreen.tsx lines 180-205) -/

/-- JavaScript `String.prototype.trim`: drop whitespace from both ends. -/
def jsTrim (s : String) : String :=
  ⟨((s.data.dropWhile Char.isWhitespace).reverse.dropWhile Char.isWhitespace).reverse⟩

/-- The caller-visible assistant-message content after a successful
`generateStreamingText` call in `sendMessage`: partial chunks are
concatenated into `accumulated`; if the accumulation trims to empty
(`!accumulated.trim()`) the sentinel `"No response generated."` replaces it. -/
def chatFinalContent (chunks : List String) : String :=
  let accumulated := String.join chunks
  if jsTrim accumulated = "" then "No response generated." else accumulated

/-! ## generateStreamingText handle validation
(src/build/ExpoLlmMediapipeModule.js lines 387-393) -/

/-- Outcome of the handle-validation prologue of `generateStreamingText`:
whether it rejected (and with which message), and whether the body that
registers the two event subscriptions and issues the native call ran. -/
structure GstPrologue where
  rejectedWith : Option String
  subscriptionsRegistered : Bool
  nativeCallIssued : Bool
deriving DecidableEq, Repr

/-- The prologue of `generateStreamingText`: `if (!modelHandle && modelHandle !== 0)`
reject with the fixed message and return; otherwise proceed to register the
partial/error subscriptions and issue the native call. -/
def gstPrologue (modelHandle : JsHandle) : GstPrologue :=
  if !modelHandle.truthy && modelHandle != .num 0 then
    { rejectedWith := some "Invalid model handle provided to generateStreamingText."
      subscriptionsRegistered := false
      nativeCallIssued := false }
  else
    { rejectedWith := none, subscriptionsRegistered := true, nativeCallIssued := true }

/-! ## Generation request lifecycle

One in-flight request of `generateStreamingResponse` /
`generateStreamingText` (identical event logic: lines 178-220 and 388-457)
or of the buffering `generateResponse` (lines 141-171) is modelled as a
state acted on by the stimuli the JS closure can receive: a published
`onPartialResponse` event, a published `onErrorResponse` event, the abort
signal firing, and the native promise settling. -/

/-- How the request's returned promise settled. -/
inductive Outcome where
  | resolved
  | rejected (msg : String)
deriving DecidableEq, Repr

/-- A stimulus reaching one request's closures. Event fields carry the
published `handle` and `requestId` (which may differ from the request's
own) plus the payload. -/
inductive ReqEv where
  | partialEv (handle requestId : Nat) (response : String)
  | errorEv (handle requestId : Nat) (err : String)
  | abortEv
  | nativeResolve
  | nativeReject (msg : String)
deriving DecidableEq, Repr

/-- The caller-observable state of one request: whether each Event Bus
subscription is still attached, whether the abort signal has fired
(`abortSignal.aborted`), how the promise settled (`none` = still pending),
and the `onPartial` / `onError` invocations so far (payload, requestId). -/
structure ReqState where
  partialAttached : Bool
  errorAttached : Bool
  aborted : Bool
  settled : Option Outcome
  partialCalls : List (String × Nat)
  errorCalls : List (String × Nat)
deriving DecidableEq, Repr

/-- State right after the entry point subscribed both listeners. -/
def initReq : ReqState :=
  { partialAttached := true, errorAttached := true, aborted := false
    settled := none, partialCalls := [], errorCalls := [] }

/-- JS promise settlement is first-wins: `resolve`/`reject` on an already
settled promise is a no-op. -/
def settleWith (s : ReqState) (o : Outcome) : Option Outcome :=
  match s.settled with
  | some x => some x
  | none => some o

/-- One stimulus of the streaming variants (`generateStreamingResponse`,
`generateStreamingText`), for the request identified by
`(handle, requestId)`:
* an attached partial listener invokes `onPartial` when
  `ev.handle === handle && ev.requestId === requestId && !aborted`;
* an attached error listener, under the same predicate, invokes `onError`,
  removes both subscriptions and rejects with `new Error(ev.error)`;
* the abort listener removes both subscriptions and rejects `"Aborted"`
  (the signal's `aborted` flag is now set);
* the native promise settling, unless aborted, removes both subscriptions
  and resolves (or invokes `onError` and rejects with the native message). -/
def streamStep (handle requestId : Nat) (s : ReqState) : ReqEv → ReqState
  | .partialEv h r resp =>
    if s.partialAttached && h == handle && r == requestId && !s.aborted then
      { s with partialCalls := s.partialCalls ++ [(resp, r)] }
    else s
  | .errorEv h r err =>
    if s.errorAttached && h == handle && r == requestId && !s.aborted then
      { s with errorCalls := s.errorCalls ++ [(err, r)]
               errorAttached := false, partialAttached := false
               settled := settleWith s (.rejected err) }
    else s
  | .abortEv =>
    { s with aborted := true, errorAttached := false, partialAttached := false
             settled := settleWith s (.rejected "Aborted") }
  | .nativeResolve =>
    if !s.aborted then
      { s with errorAttached := false, partialAttached := false
               settled := settleWith s .resolved }
    else s
  | .nativeReject msg =>
    if !s.aborted then
      { s with errorAttached := false, partialAttached := false
               errorCalls := s.errorCalls ++ [(msg, requestId)]
               settled := settleWith s (.rejected msg) }
    else s

/-- One stimulus of the buffering `generateResponse` variant:
* partial and error listeners invoke their callbacks under the same
  match-and-not-aborted predicate, but the error listener neither detaches
  nor rejects;
* no abort listener is registered — the abort signal firing only sets the
  `aborted` flag the listeners consult;
* subscriptions are removed in the `finally` when the native promise
  settles: resolution returns the native result regardless of the abort
  flag, rejection additionally invokes `onError` unless aborted. -/
def bufStep (handle requestId : Nat) (s : ReqState) : ReqEv → ReqState
  | .partialEv h r resp =>
    if s.partialAttached && h == handle && r == requestId && !s.aborted then
      { s with partialCalls := s.partialCalls ++ [(resp, r)] }
    else s
  | .errorEv h r err =>
    if s.errorAttached && h == handle && r == requestId && !s.aborted then
      { s with errorCalls := s.errorCalls ++ [(err, r)] }
    else s
  | .abortEv => { s with aborted := true }
  | .nativeResolve =>
    { s with errorAttached := false, partialAttached := false
             settled := settleWith s .resolved }
  | .nativeReject msg =>
    { s with errorAttached := false, partialAttached := false
             errorCalls := if !s.aborted then s.errorCalls ++ [(msg, requestId)]
                           else s.errorCalls
             settled := settleWith s (.rejected msg) }

/-- Run a streaming request over a stimulus trace. -/
def runStream (handle requestId : Nat) (evs : List ReqEv) : ReqState :=
  evs.foldl (streamStep handle requestId) initReq

/-- Run a buffering request over a stimulus trace. -/
def runBuf (handle requestId : Nat) (evs : List ReqEv) : ReqState :=
  evs.foldl (bufStep handle requestId) initReq

/-- Terminal for the streaming variants: the promise has settled
(completed, failed, or aborted all settle it). -/
def streamTerminal (s : ReqState) : Bool :=
  s.settled.isSome

/-- Terminal for the buffering variant: the promise has settled, or the
request was aborted (the buffering variant never rejects on abort, so
`aborted` is the caller-visible terminal mark there). -/
def bufTerminal (s : ReqState) : Bool :=
  s.settled.isSome || s.aborted

/-! ## Request identity
(`nextRequestIdRef.current++` in the hooks;
`Math.floor(Math.random() * 1000000)` in `generateStreamingText`, line 393) -/

/-- `nextRequestIdRef.current++`: returns the current counter and the
incremented ref. -/
def drawRequestId (c : Nat) : Nat × Nat := (c, c + 1)

/-- The requestId drawn by the i-th generation call on one hook instance
whose counter ref currently holds `c`. -/
def nthRequestId (c : Nat) : Nat → Nat
  | 0 => (drawRequestId c).1
  | n + 1 => nthRequestId (drawRequestId c).2 n

/-- `Math.floor(Math.random() * 1000000)` with `Math.random()` returning
the rational `q ∈ [0, 1)`. -/
def gstRequestId (q : ℚ) : ℤ := ⌊q * 1000000⌋

/-! ## Download progress
(`downloadProgress` listener of `_useLLMDownloadable`,
src/build/ExpoLlmMediapipeModule.js lines 71-94) -/

/-- One `downloadProgress` event published by the native side. -/
structure DlEv where
  modelName : String
  status : String
  progress : Option ℚ
  error : Option String
deriving DecidableEq, Repr

/-- The hook state the listener mutates. -/
structure DlState where
  downloadStatus : String
  downloadProgress : ℚ
  downloadError : Option String
deriving DecidableEq, Repr

/-- `event.error || "Unknown error occurred"`: the empty string is falsy. -/
def dlErrorMessage (e : Option String) : String :=
  match e with
  | some s => if s = "" then "Unknown error occurred" else s
  | none => "Unknown error occurred"

/-- The `downloadProgress` listener for the hook instance watching
`modelName`: ignore other models' events; on `"downloading"` with a defined
progress store that value verbatim; on `"completed"` force progress 1,
status `"downloaded"` and clear the error; on `"error"` store the message;
on `"cancelled"` reset progress to 0. -/
def dlStep (modelName : String) (s : DlState) (e : DlEv) : DlState :=
  if e.modelName != modelName then s
  else if e.status == "downloading" && e.progress.isSome then
    { s with downloadProgress := e.progress.getD 0, downloadStatus := "downloading" }
  else if e.status == "completed" then
    { s with downloadProgress := 1, downloadStatus := "downloaded", downloadError := none }
  else if e.status == "error" then
    { s with downloadStatus := "error", downloadError := some (dlErrorMessage e.error) }
  else if e.status == "cancelled" then
    { s with downloadStatus := "not_downloaded", downloadProgress := 0 }
  else s

/-- The progress value observed after each event of a trace. -/
def dlObserved (modelName : String) (s : DlState) : List DlEv → List ℚ
  | [] => []
  | e :: rest =>
    let s' := dlStep modelName s e
    s'.downloadProgress :: dlObserved modelName s' rest

/-- The hook state when a download attempt starts
(`downloadModelHandler` sets status `"downloading"`, progress 0, error null). -/
def dlAttemptStart : DlState :=
  { downloadStatus := "downloading", downloadProgress := 0, downloadError := none }

/-- A `"downloading"` tick for model `m` carrying progress `p`. -/
def dlTick (m : String) (p : ℚ) : DlEv :=
  { modelName := m, status := "downloading", progress := some p, error := none }

/-- A `"completed"` event for model `m`. -/
def dlCompleted (m : String) : DlEv :=
  { modelName := m, status := "completed", progress := none, error := none }

/-! ## Stale-promise handling in the asset/file hook
(`_useLLMBase`, src/build/ExpoLlmMediapipeModule.js lines 252-295)

The create effect guards its promise callbacks with a closure-captured
`active` flag that its cleanup clears; the handle effect releases the
previously stored handle whenever `modelHandle` changes or on unmount.
A React state set to an identical value does not re-fire the effect, so
storing the same handle again releases nothing. -/

/-- The hook state: which create effect (by id) is still active, the next
effect id, the stored `modelHandle`, and every handle passed to the native
`releaseModel`. -/
structure BaseState where
  activeCfg : Option Nat
  nextCfg : Nat
  stored : Option Nat
  released : List Nat
deriving DecidableEq, Repr

/-- Stimuli of the asset/file hook:
* `configChange` — the create effect's cleanup runs (`active = false`) and
  the effect re-runs for the new configuration, starting a fresh create
  whose promise carries the new effect id;
* `resolveCreate cfg h` — the create promise of effect `cfg` resolves with
  handle `h`;
* `rejectCreate cfg` — that promise rejects;
* `unmount` — both effects' cleanups run. -/
inductive BaseEv where
  | configChange
  | resolveCreate (cfg : Nat) (h : Nat)
  | rejectCreate (cfg : Nat)
  | unmount
deriving DecidableEq, Repr

/-- One stimulus of `_useLLMBase`. On an active resolve, `setModelHandle(h)`
stores the handle and the handle effect's cleanup releases the previous one
(if different); on a stale resolve (`active === false`) the handle is
released immediately and the stored handle is untouched; on an active
reject, `setModelHandle(undefined)` releases the stored handle; unmount
deactivates the pending create and releases the stored handle. -/
def baseStep (s : BaseState) : BaseEv → BaseState
  | .configChange =>
    { s with activeCfg := some s.nextCfg, nextCfg := s.nextCfg + 1 }
  | .resolveCreate cfg h =>
    if s.activeCfg == some cfg then
      if s.stored == some h then s
      else
        { s with stored := some h, released := s.released ++ s.stored.toList }
    else
      { s with released := s.released ++ [h] }
  | .rejectCreate cfg =>
    if s.activeCfg == some cfg then
      { s with stored := none, released := s.released ++ s.stored.toList }
    else s
  | .unmount =>
    { s with activeCfg := none, stored := none, released := s.released ++ s.stored.toList }

/-- The freshly mounted hook: no effect has run yet, nothing stored. -/
def baseInit : BaseState :=
  { activeCfg := none, nextCfg := 0, stored := none, released := [] }

/-- Run the asset/file hook over a stimulus trace. -/
def runBase (evs : List BaseEv) : BaseState :=
  evs.foldl baseStep baseInit

/-- `true` when the trace contains a resolve of handle `h` that was active
at its point in the run started from `s`: only such resolves may store `h`. -/
def hasActiveResolve (s : BaseState) : List BaseEv → Nat → Bool
  | [], _ => false
  | e :: rest, h =>
    (match e with
     | .resolveCreate cfg h2 => h2 == h && s.activeCfg == some cfg
     | _ => false)
    || hasActiveResolve (baseStep s e) rest h

/-! ## Helper lemmas -/

/-- The two-stage filter of `normalizeGenerationInput` followed by
`extractImageUris` keeps exactly the uris characterized by
`survivingImageUris`. -/
lemma filter_after_normalize (atts : List (Option RawAttachment)) :
    ((atts.filterMap normalizeAttachment).filter
        (fun a => a.type == "image" && a.uri.length > 0)).map (·.uri) =
      survivingImageUris atts := by
  induction atts with
  | nil => rfl
  | cons oa rest ih =>
    cases oa with
    | none =>
      simpa [survivingImageUris, normalizeAttachment, List.filterMap_cons] using ih
    | some a =>
      cases hu : a.uri with
      | str u =>
        by_cases hlen : u.length > 0
        · by_cases htype : a.type = "image"
          · simp [survivingImageUris, normalizeAttachment, List.filterMap_cons, hu, hlen,
              htype, ih]
          · simp [survivingImageUris, normalizeAttachment, List.filterMap_cons, hu, hlen,
              htype, ih]
        · simp [survivingImageUris, normalizeAttachment, List.filterMap_cons, hu, hlen, ih]
      | undef =>
        simpa [survivingImageUris, normalizeAttachment, List.filterMap_cons, hu] using ih
      | nullv =>
        simpa [survivingImageUris, normalizeAttachment, List.filterMap_cons, hu] using ih
      | num n =>
        simpa [survivingImageUris, normalizeAttachment, List.filterMap_cons, hu] using ih

/-- `extractImageUris` on a present attachment list is determined by the
image-uri filter alone: the separate empty-list early return coincides with
the empty-filter-result return. -/
lemma extractImageUris_eq (l : List NormAttachment) :
    extractImageUris (some l) =
      if ((l.filter (fun a => a.type == "image" && a.uri.length > 0)).map (·.uri)).isEmpty
      then none
      else some ((l.filter (fun a => a.type == "image" && a.uri.length > 0)).map (·.uri)) := by
  cases l with
  | nil => rfl
  | cons a rest => simp [extractImageUris]

/-- Streaming variants: a settled promise implies both subscriptions are
detached (every settling branch removes both listeners). -/
lemma streamStep_inv (hd rid : Nat) (s : ReqState) (e : ReqEv)
    (hInv : s.settled.isSome → s.partialAttached = false ∧ s.errorAttached = false) :
    (streamStep hd rid s e).settled.isSome →
      (streamStep hd rid s e).partialAttached = false ∧
        (streamStep hd rid s e).errorAttached = false := by
  cases e <;> dsimp only [streamStep] <;> first
    | (intro _; exact ⟨rfl, rfl⟩)
    | (split
       · intro _; first | exact ⟨rfl, rfl⟩ | exact hInv (by assumption)
       · exact hInv)

/-- Buffering variant: a settled promise implies both subscriptions are
detached (only the native `finally` settles, and it removes both). -/
lemma bufStep_inv (hd rid : Nat) (s : ReqState) (e : ReqEv)
    (hInv : s.settled.isSome → s.partialAttached = false ∧ s.errorAttached = false) :
    (bufStep hd rid s e).settled.isSome →
      (bufStep hd rid s e).partialAttached = false ∧
        (bufStep hd rid s e).errorAttached = false := by
  cases e <;> dsimp only [bufStep] <;> first
    | (intro _; exact ⟨rfl, rfl⟩)
    | exact hInv
    | (split
       · intro h; exact hInv h
       · exact hInv)

/-- The settled-implies-detached invariant holds along every streaming run. -/
lemma runStream_inv (hd rid : Nat) (evs : List ReqEv) :
    (runStream hd rid evs).settled.isSome →
      (runStream hd rid evs).partialAttached = false ∧
        (runStream hd rid evs).errorAttached = false := by
  suffices h : ∀ s : ReqState,
      (s.settled.isSome → s.partialAttached = false ∧ s.errorAttached = false) →
      ((evs.foldl (streamStep hd rid) s).settled.isSome →
        (evs.foldl (streamStep hd rid) s).partialAttached = false ∧
          (evs.foldl (streamStep hd rid) s).errorAttached = false) by
    exact h initReq (by intro hs; simp [initReq] at hs)
  induction evs with
  | nil => exact fun s hInv => hInv
  | cons e rest ih => exact fun s hInv => ih _ (streamStep_inv hd rid s e hInv)

/-- The settled-implies-detached invariant holds along every buffering run. -/
lemma runBuf_inv (hd rid : Nat) (evs : List ReqEv) :
    (runBuf hd rid evs).settled.isSome →
      (runBuf hd rid evs).partialAttached = false ∧
        (runBuf hd rid evs).errorAttached = false := by
  suffices h : ∀ s : ReqState,
      (s.settled.isSome → s.partialAttached = false ∧ s.errorAttached = false) →
      ((evs.foldl (bufStep hd rid) s).settled.isSome →
        (evs.foldl (bufStep hd rid) s).partialAttached = false ∧
          (evs.foldl (bufStep hd rid) s).errorAttached = false) by
    exact h initReq (by intro hs; simp [initReq] at hs)
  induction evs with
  | nil => exact fun s hInv => hInv
  | cons e rest ih => exact fun s hInv => ih _ (bufStep_inv hd rid s e hInv)

/-- A detached partial listener never runs: the step is the identity. -/
lemma streamStep_partial_detached (hd rid h r : Nat) (resp : String) (s : ReqState)
    (hdet : s.partialAttached = false) :
    streamStep hd rid s (.partialEv h r resp) = s := by
  simp [streamStep, hdet]

/-- A detached error listener never runs: the step is the identity. -/
lemma streamStep_error_detached (hd rid h r : Nat) (err : String) (s : ReqState)
    (hdet : s.errorAttached = false) :
    streamStep hd rid s (.errorEv h r err) = s := by
  simp [streamStep, hdet]

/-- Buffering variant, detached partial listener: identity. -/
lemma bufStep_partial_detached (hd rid h r : Nat) (resp : String) (s : ReqState)
    (hdet : s.partialAttached = false) :
    bufStep hd rid s (.partialEv h r resp) = s := by
  simp [bufStep, hdet]

/-- Buffering variant, detached error listener: identity. -/
lemma bufStep_error_detached (hd rid h r : Nat) (err : String) (s : ReqState)
    (hdet : s.errorAttached = false) :
    bufStep hd rid s (.errorEv h r err) = s := by
  simp [bufStep, hdet]

/-- Buffering variant, aborted request: partial events are ignored. -/
lemma bufStep_partial_aborted (hd rid h r : Nat) (resp : String) (s : ReqState)
    (hab : s.aborted = true) :
    bufStep hd rid s (.partialEv h r resp) = s := by
  simp [bufStep, hab]

/-- Buffering variant, aborted request: error events are ignored. -/
lemma bufStep_error_aborted (hd rid h r : Nat) (err : String) (s : ReqState)
    (hab : s.aborted = true) :
    bufStep hd rid s (.errorEv h r err) = s := by
  simp [bufStep, hab]

/-! ## Claim theorems -/

/-- C1: once a request is terminal (promise settled for the streaming
variants; promise settled or abort flag set for the buffering
`generateResponse`), a further published `onPartialResponse` or
`onErrorResponse` event matching the request's `(handle, requestId)` pair
leaves the state unchanged: no callback is invoked and the outcome does
not change. -/
theorem c1_terminal_absorbing (hd rid : Nat) (evsS evsB : List ReqEv) (resp err : String)
    (hS : streamTerminal (runStream hd rid evsS) = true)
    (hB : bufTerminal (runBuf hd rid evsB) = true) :
    streamStep hd rid (runStream hd rid evsS) (.partialEv hd rid resp) =
        runStream hd rid evsS ∧
    streamStep hd rid (runStream hd rid evsS) (.errorEv hd rid err) =
        runStream hd rid evsS ∧
    bufStep hd rid (runBuf hd rid evsB) (.partialEv hd rid resp) = runBuf hd rid evsB ∧
    bufStep hd rid (runBuf hd rid evsB) (.errorEv hd rid err) = runBuf hd rid evsB := by
  have hSdet := runStream_inv hd rid evsS (by simpa [streamTerminal] using hS)
  refine ⟨streamStep_partial_detached hd rid hd rid resp _ hSdet.1,
    streamStep_error_detached hd rid hd rid err _ hSdet.2, ?_, ?_⟩
  · rcases Bool.or_eq_true .. |>.mp (by simpa [bufTerminal] using hB) with hset | hab
    · exact bufStep_partial_detached hd rid hd rid resp _ (runBuf_inv hd rid evsB hset).1
    · exact bufStep_partial_aborted hd rid hd rid resp _ hab
  · rcases Bool.or_eq_true .. |>.mp (by simpa [bufTerminal] using hB) with hset | hab
    · exact bufStep_error_detached hd rid hd rid err _ (runBuf_inv hd rid evsB hset).2
    · exact bufStep_error_aborted hd rid hd rid err _ hab

/-- Witness for C1: after the native call resolves (streaming) or the abort
signal has fired (buffering), matching events are absorbed. -/
theorem c1_terminal_absorbing_witness :
    streamStep 1 0 (runStream 1 0 [.nativeResolve]) (.partialEv 1 0 "x") =
        runStream 1 0 [.nativeResolve] ∧
    streamStep 1 0 (runStream 1 0 [.nativeResolve]) (.errorEv 1 0 "e") =
        runStream 1 0 [.nativeResolve] ∧
    bufStep 1 0 (runBuf 1 0 [.abortEv]) (.partialEv 1 0 "x") = runBuf 1 0 [.abortEv] ∧
    bufStep 1 0 (runBuf 1 0 [.abortEv]) (.errorEv 1 0 "e") = runBuf 1 0 [.abortEv] :=
  c1_terminal_absorbing 1 0 [.nativeResolve] [.abortEv] "x" "e" (by decide) (by decide)

/-- C2 counterexample: in the buffering `generateResponse`, firing the
abort signal detaches neither subscription and rejects nothing — both
listeners stay attached, the promise stays pending, and when the native
call later resolves the promise resolves instead of rejecting `Aborted`. -/
theorem c2_counterexample :
    (runBuf 1 0 [.abortEv]).partialAttached = true ∧
    (runBuf 1 0 [.abortEv]).errorAttached = true ∧
    (runBuf 1 0 [.abortEv]).settled = none ∧
    (runBuf 1 0 [.abortEv, .nativeResolve]).settled = some .resolved := by
  decide

/-- C2 (amended): for `generateStreamingResponse` and
`generateStreamingText`, the abort listener synchronously detaches both
subscriptions and rejects the pending promise with `Aborted`, even if no
partial event ever arrived, and matching events afterwards are absorbed.
For the buffering `generateResponse` the abort signal only sets the
`aborted` flag — subscriptions and promise are untouched — but subsequent
matching events no longer invoke callbacks. -/
theorem c2_abort_behavior (hd rid : Nat) (s sb : ReqState) (resp err : String)
    (hpend : s.settled = none) :
    (streamStep hd rid s .abortEv).partialAttached = false ∧
    (streamStep hd rid s .abortEv).errorAttached = false ∧
    (streamStep hd rid s .abortEv).settled = some (.rejected "Aborted") ∧
    streamStep hd rid (streamStep hd rid s .abortEv) (.partialEv hd rid resp) =
        streamStep hd rid s .abortEv ∧
    streamStep hd rid (streamStep hd rid s .abortEv) (.errorEv hd rid err) =
        streamStep hd rid s .abortEv ∧
    bufStep hd rid sb .abortEv = { sb with aborted := true } ∧
    bufStep hd rid (bufStep hd rid sb .abortEv) (.partialEv hd rid resp) =
        bufStep hd rid sb .abortEv ∧
    bufStep hd rid (bufStep hd rid sb .abortEv) (.errorEv hd rid err) =
        bufStep hd rid sb .abortEv := by
  refine ⟨rfl, rfl, by simp [streamStep, settleWith, hpend], ?_, ?_, rfl, ?_, ?_⟩
  · exact streamStep_partial_detached hd rid hd rid resp _ rfl
  · exact streamStep_error_detached hd rid hd rid err _ rfl
  · exact bufStep_partial_aborted hd rid hd rid resp _ rfl
  · exact bufStep_error_aborted hd rid hd rid err _ rfl

/-- Witness for C2 (amended), on the freshly subscribed state with no
partial event yet. -/
theorem c2_abort_behavior_witness :
    (streamStep 1 0 initReq .abortEv).partialAttached = false ∧
    (streamStep 1 0 initReq .abortEv).errorAttached = false ∧
    (streamStep 1 0 initReq .abortEv).settled = some (.rejected "Aborted") ∧
    streamStep 1 0 (streamStep 1 0 initReq .abortEv) (.partialEv 1 0 "x") =
        streamStep 1 0 initReq .abortEv ∧
    streamStep 1 0 (streamStep 1 0 initReq .abortEv) (.errorEv 1 0 "e") =
        streamStep 1 0 initReq .abortEv ∧
    bufStep 1 0 initReq .abortEv = { initReq with aborted := true } ∧
    bufStep 1 0 (bufStep 1 0 initReq .abortEv) (.partialEv 1 0 "x") =
        bufStep 1 0 initReq .abortEv ∧
    bufStep 1 0 (bufStep 1 0 initReq .abortEv) (.errorEv 1 0 "e") =
        bufStep 1 0 initReq .abortEv :=
  c2_abort_behavior 1 0 initReq initReq "x" "e" rfl

/-- C3 counterexample: in the buffering `generateResponse`, a matching
`onErrorResponse` event invokes `onError` but detaches nothing and rejects
nothing — both subscriptions stay attached and the promise stays pending. -/
theorem c3_counterexample :
    (runBuf 1 0 [.errorEv 1 0 "boom"]).errorCalls = [("boom", 0)] ∧
    (runBuf 1 0 [.errorEv 1 0 "boom"]).errorAttached = true ∧
    (runBuf 1 0 [.errorEv 1 0 "boom"]).partialAttached = true ∧
    (runBuf 1 0 [.errorEv 1 0 "boom"]).settled = none := by
  decide

/-- C3 (amended): in the streaming variants a matching `onErrorResponse`
event on a live request invokes `onError` with the carried error, detaches
both subscriptions and rejects the promise with exactly that message; in
the buffering `generateResponse` it only invokes `onError`, leaving
subscriptions and promise untouched. -/
theorem c3_error_event_behavior (hd rid : Nat) (s sb : ReqState) (err : String)
    (hatt : s.errorAttached = true) (hnab : s.aborted = false) (hpend : s.settled = none)
    (hatt2 : sb.errorAttached = true) (hnab2 : sb.aborted = false) :
    streamStep hd rid s (.errorEv hd rid err) =
      { s with errorCalls := s.errorCalls ++ [(err, rid)], errorAttached := false
               partialAttached := false, settled := some (.rejected err) } ∧
    bufStep hd rid sb (.errorEv hd rid err) =
      { sb with errorCalls := sb.errorCalls ++ [(err, rid)] } := by
  constructor
  · simp [streamStep, hatt, hnab, settleWith, hpend]
  · simp [bufStep, hatt2, hnab2]

/-- Witness for C3 (amended) on freshly subscribed requests. -/
theorem c3_error_event_behavior_witness :
    streamStep 1 0 initReq (.errorEv 1 0 "boom") =
      { initReq with errorCalls := initReq.errorCalls ++ [("boom", 0)]
                     errorAttached := false, partialAttached := false
                     settled := some (.rejected "boom") } ∧
    bufStep 1 0 initReq (.errorEv 1 0 "boom") =
      { initReq with errorCalls := initReq.errorCalls ++ [("boom", 0)] } :=
  c3_error_event_behavior 1 0 initReq initReq "boom" rfl rfl rfl rfl rfl

/-- The counter draw sequence is an arithmetic progression. -/
lemma nthRequestId_eq (i : Nat) : ∀ c : Nat, nthRequestId c i = c + i := by
  induction i with
  | zero => intro c; rfl
  | succ n ih =>
    intro c
    show nthRequestId (c + 1) n = c + (n + 1)
    rw [ih (c + 1)]
    omega

/-- Mismatching events never reach a request's listeners, in any variant. -/
lemma step_mismatch_ignored (hd rid h r : Nat) (resp err : String) (s : ReqState)
    (hne : h ≠ hd ∨ r ≠ rid) :
    streamStep hd rid s (.partialEv h r resp) = s ∧
      bufStep hd rid s (.partialEv h r resp) = s ∧
      streamStep hd rid s (.errorEv h r err) = s ∧
      bufStep hd rid s (.errorEv h r err) = s := by
  rcases hne with hne | hne <;>
    exact ⟨by simp [streamStep, hne], by simp [bufStep, hne],
      by simp [streamStep, hne], by simp [bufStep, hne]⟩

/-- C4: every generation call draws a fresh requestId — the hooks use the
incrementing `nextRequestIdRef` counter, so distinct calls on one hook get
distinct ids, and `generateStreamingText` draws
`Math.floor(Math.random() * 1000000) ∈ [0, 999999]` — and the listeners'
filter predicate invokes callbacks only for events whose handle and
requestId both equal the request's own: an event carrying any other pair
leaves the request state untouched in every variant. -/
theorem c4_request_identity :
    (∀ c i j : Nat, i ≠ j → nthRequestId c i ≠ nthRequestId c j) ∧
    (∀ q : ℚ, 0 ≤ q → q < 1 → 0 ≤ gstRequestId q ∧ gstRequestId q ≤ 999999) ∧
    (∀ hd rid h r : Nat, ∀ resp err : String, ∀ s : ReqState, h ≠ hd ∨ r ≠ rid →
      streamStep hd rid s (.partialEv h r resp) = s ∧
        bufStep hd rid s (.partialEv h r resp) = s ∧
        streamStep hd rid s (.errorEv h r err) = s ∧
        bufStep hd rid s (.errorEv h r err) = s) := by
  refine ⟨fun c i j hij => ?_, fun q h0 h1 => ⟨?_, ?_⟩, step_mismatch_ignored⟩
  · rw [nthRequestId_eq i c, nthRequestId_eq j c]
    omega
  · exact Int.floor_nonneg.mpr (by positivity)
  · have hq : (q * 1000000 : ℚ) < ((1000000 : ℤ) : ℚ) := by
      push_cast
      nlinarith
    have h2 : gstRequestId q < 1000000 := Int.floor_lt.mpr hq
    omega

/-- Witness for C4: the first two counter draws differ, a concrete random
value lands in range, and an event for a different requestId is ignored. -/
theorem c4_request_identity_witness :
    nthRequestId 0 0 ≠ nthRequestId 0 1 ∧
    (0 ≤ gstRequestId (1 / 2) ∧ gstRequestId (1 / 2) ≤ 999999) ∧
    (streamStep 1 0 initReq (.partialEv 1 5 "x") = initReq ∧
      bufStep 1 0 initReq (.partialEv 1 5 "x") = initReq ∧
      streamStep 1 0 initReq (.errorEv 1 5 "e") = initReq ∧
      bufStep 1 0 initReq (.errorEv 1 5 "e") = initReq) :=
  ⟨c4_request_identity.1 0 0 1 (by decide),
    c4_request_identity.2.1 (1 / 2) (by norm_num) (by norm_num),
    c4_request_identity.2.2 1 0 1 5 "x" "e" initReq (Or.inr (by decide))⟩

/-- C5 counterexample: the `downloadProgress` listener stores each tick's
value verbatim — feeding ticks `0.3, 0.2, 0.9, completed` yields the
observed sequence `0.3, 0.2, 0.9, 1`, not the monotone `0.3, 0.3, 0.9, 1`
the claim requires. -/
theorem c5_counterexample :
    dlObserved "m" dlAttemptStart
        [dlTick "m" (3/10), dlTick "m" (2/10), dlTick "m" (9/10), dlCompleted "m"] =
      [3/10, 2/10, 9/10, 1] ∧
    ([3/10, 2/10, 9/10, 1] : List ℚ) ≠ [3/10, 3/10, 9/10, 1] := by
  refine ⟨rfl, fun hc => ?_⟩
  simp only [List.cons.injEq] at hc
  exact absurd hc.2.1 (by norm_num)

/-- C5 (amended): the caller-visible download progress simply mirrors each
`downloading` event's progress value — it is neither clamped to `[0, 1]`
nor made monotone — while a `completed` event does force progress to
exactly 1; the ticks `0.3, 0.2, 0.9, completed` yield the observed
sequence `0.3, 0.2, 0.9, 1`. -/
theorem c5_progress_passthrough :
    (∀ (m : String) (s : DlState) (p : ℚ), dlStep m s (dlTick m p) =
      { s with downloadProgress := p, downloadStatus := "downloading" }) ∧
    (∀ (m : String) (s : DlState) (opt : Option ℚ) (err : Option String),
      dlStep m s { modelName := m, status := "completed", progress := opt, error := err } =
        { s with downloadProgress := 1, downloadStatus := "downloaded"
                 downloadError := none }) ∧
    dlObserved "m" dlAttemptStart
        [dlTick "m" (3/10), dlTick "m" (2/10), dlTick "m" (9/10), dlCompleted "m"] =
      [3/10, 2/10, 9/10, 1] := by
  refine ⟨fun m s p => ?_, fun m s opt err => ?_, rfl⟩
  · simp [dlStep, dlTick]
  · simp [dlStep,
      show (("completed" : String) == "downloading") = false by decide,
      show (("completed" : String) == "completed") = true by decide]

/-- Along every hook run, the list of handles passed to the native
`releaseModel` only grows. -/
lemma baseStep_released_mono (s : BaseState) (e : BaseEv) :
    ∃ l, (baseStep s e).released = s.released ++ l := by
  cases e with
  | configChange => exact ⟨[], by simp [baseStep]⟩
  | resolveCreate cfg h =>
    by_cases hact : s.activeCfg = some cfg
    · by_cases hsame : s.stored = some h
      · exact ⟨[], by simp [baseStep, hact, hsame]⟩
      · exact ⟨s.stored.toList, by simp [baseStep, hact, hsame]⟩
    · exact ⟨[h], by simp [baseStep, hact]⟩
  | rejectCreate cfg =>
    by_cases hact : s.activeCfg = some cfg
    · exact ⟨s.stored.toList, by simp [baseStep, hact]⟩
    · exact ⟨[], by simp [baseStep, hact]⟩
  | unmount => exact ⟨s.stored.toList, by simp [baseStep]⟩

/-- A handle can only be stored by a create promise that resolved while its
effect was still active: a run ending with `stored = some h` either started
with `h` stored or contains an active resolve of `h`. -/
lemma foldl_stored_active (evs : List BaseEv) : ∀ (s : BaseState) (h : Nat),
    (evs.foldl baseStep s).stored = some h →
    s.stored = some h ∨ hasActiveResolve s evs h = true := by
  induction evs with
  | nil => exact fun s h hst => Or.inl hst
  | cons e rest ih =>
    intro s h hst
    rcases ih (baseStep s e) h hst with hmid | hrest
    · cases e with
      | configChange => exact Or.inl (by simpa [baseStep] using hmid)
      | resolveCreate cfg h2 =>
        by_cases hact : s.activeCfg = some cfg
        · by_cases hsame : s.stored = some h2
          · left
            simpa [baseStep, hact, hsame] using hmid
          · have hh2 : h2 = h := by
              have : (baseStep s (.resolveCreate cfg h2)).stored = some h2 := by
                simp [baseStep, hact, hsame]
              rw [this] at hmid
              exact Option.some_inj.mp hmid
            right
            simp [hasActiveResolve, hact, hh2]
        · left
          simpa [baseStep, hact] using hmid
      | rejectCreate cfg =>
        by_cases hact : s.activeCfg = some cfg
        · exfalso
          have : (baseStep s (.rejectCreate cfg)).stored = none := by
            simp [baseStep, hact]
          rw [this] at hmid
          exact Option.noConfusion hmid
        · left
          simpa [baseStep, hact] using hmid
      | unmount =>
        exfalso
        have : (baseStep s .unmount).stored = none := by simp [baseStep]
        rw [this] at hmid
        exact Option.noConfusion hmid
    · right
      cases e <;> simp [hasActiveResolve, hrest]

/-- C7: in the asset/file hook, a handle is only ever stored as the current
handle by a create promise that was still active when it resolved (so a
stale promise's handle never becomes current); a stale resolve instead
passes its handle straight to the native `releaseModel` and leaves the
stored handle untouched; an active resolve that supersedes a stored handle
releases that previous handle; and unmount clears and releases the stored
handle. -/
theorem c7_stale_promise_handling
    (evs : List BaseEv) (hh : Nat) (hstored : (runBase evs).stored = some hh)
    (s : BaseState) (cfg nh : Nat) (hstale : s.activeCfg ≠ some cfg)
    (s2 : BaseState) (cfg2 nh2 : Nat) (hact : s2.activeCfg = some cfg2)
    (hdiff : s2.stored ≠ some nh2) :
    hasActiveResolve baseInit evs hh = true ∧
    baseStep s (.resolveCreate cfg nh) = { s with released := s.released ++ [nh] } ∧
    baseStep s2 (.resolveCreate cfg2 nh2) =
      { s2 with stored := some nh2, released := s2.released ++ s2.stored.toList } ∧
    (baseStep s2 .unmount).stored = none ∧
    (baseStep s2 .unmount).released = s2.released ++ s2.stored.toList := by
  refine ⟨?_, by simp [baseStep, hstale], by simp [baseStep, hact, hdiff], rfl, rfl⟩
  rcases foldl_stored_active evs baseInit hh hstored with h0 | h1
  · simp [baseInit] at h0
  · exact h1

/-- Witness for C7: a mounted hook whose first create resolves actively
stores that handle; a hook with a newer active effect releases a stale
resolve's handle; an active resolve supersedes the stored handle; unmount
releases it. -/
theorem c7_stale_promise_handling_witness :
    hasActiveResolve baseInit [.configChange, .resolveCreate 0 5] 5 = true ∧
    baseStep { activeCfg := some 1, nextCfg := 2, stored := some 5, released := [] }
        (.resolveCreate 0 7) =
      { activeCfg := some 1, nextCfg := 2, stored := some 5, released := [7] } ∧
    baseStep { activeCfg := some 3, nextCfg := 4, stored := some 5, released := [] }
        (.resolveCreate 3 9) =
      { activeCfg := some 3, nextCfg := 4, stored := some 9, released := [5] } ∧
    (baseStep { activeCfg := some 3, nextCfg := 4, stored := some 5, released := [] }
        .unmount).stored = none ∧
    (baseStep { activeCfg := some 3, nextCfg := 4, stored := some 5, released := [] }
        .unmount).released = [5] := by
  have h := c7_stale_promise_handling [.configChange, .resolveCreate 0 5] 5 (by decide)
    { activeCfg := some 1, nextCfg := 2, stored := some 5, released := [] } 0 7 (by decide)
    { activeCfg := some 3, nextCfg := 4, stored := some 5, released := [] } 3 9 rfl (by decide)
  exact h

/-- C6: a bare string input maps to `{prompt: input}` with no image uris;
a structured input forwards exactly the uris of image-typed attachments
with a non-empty string uri (`survivingImageUris`), and forwards
`undefined` instead of an empty list when no attachment survives. -/
theorem c6_input_normalization :
    (∀ s, mapGenerationInput (.text s) = { prompt := s, imageUris := none }) ∧
    (∀ p, mapGenerationInput (.structured p none) = { prompt := p, imageUris := none }) ∧
    (∀ p atts, mapGenerationInput (.structured p (some atts)) =
      { prompt := p
        imageUris :=
          if survivingImageUris atts = [] then none else some (survivingImageUris atts) }) := by
  refine ⟨fun s => rfl, fun p => rfl, fun p atts => ?_⟩
  have h := extractImageUris_eq (atts.filterMap normalizeAttachment)
  rw [filter_after_normalize] at h
  show ({ prompt := p
          imageUris := extractImageUris (some (atts.filterMap normalizeAttachment)) } :
      MappedInput) = _
  rw [h]
  rcases hs : survivingImageUris atts with _ | ⟨u, us⟩ <;> simp [hs]

/-- C8: `releaseModelHandle` is idempotent, releasing with no held handle
is a no-op (and the model is total, so it never throws), and releasing a
held handle issues exactly one native `releaseModel` call for it — a second
invocation finds the ref empty and issues nothing. -/
theorem c8_release_idempotent :
    (∀ s, releaseModelHandle (releaseModelHandle s) = releaseModelHandle s) ∧
    (∀ calls, releaseModelHandle ⟨none, calls⟩ = ⟨none, calls⟩) ∧
    (∀ h calls, releaseModelHandle ⟨some h, calls⟩ = ⟨none, calls ++ [h]⟩) := by
  refine ⟨fun s => ?_, fun calls => rfl, fun h calls => rfl⟩
  rcases s with ⟨_ | h, calls⟩ <;> rfl

/-- C9: when a generation completes but the accumulated partial text trims
to nothing, the caller-visible content is the non-empty sentinel
`"No response generated."`, not the empty string. -/
theorem c9_no_content_sentinel (chunks : List String)
    (hws : jsTrim (String.join chunks) = "") :
    chatFinalContent chunks = "No response generated." ∧ chatFinalContent chunks ≠ "" := by
  refine ⟨?_, ?_⟩ <;> simp [chatFinalContent, hws]

/-- Witness for C9 at the concrete all-whitespace chunk list
`["  ", "\n"]`. -/
theorem c9_no_content_sentinel_witness :
    chatFinalContent ["  ", "\n"] = "No response generated." ∧
      chatFinalContent ["  ", "\n"] ≠ "" :=
  c9_no_content_sentinel ["  ", "\n"] (by decide)

/-- C10: `generateStreamingText` rejects with the fixed invalid-handle
message exactly on `null`/`undefined` handles — `0` is accepted, as is any
other number — and on the rejection path neither subscription is registered
and no native call is issued. -/
theorem c10_handle_validation :
    (gstPrologue .undef =
      { rejectedWith := some "Invalid model handle provided to generateStreamingText."
        subscriptionsRegistered := false, nativeCallIssued := false }) ∧
    (gstPrologue .nullv =
      { rejectedWith := some "Invalid model handle provided to generateStreamingText."
        subscriptionsRegistered := false, nativeCallIssued := false }) ∧
    (∀ n : Int, gstPrologue (.num n) =
      { rejectedWith := none, subscriptionsRegistered := true, nativeCallIssued := true }) ∧
    (∀ h, (gstPrologue h).rejectedWith.isSome ↔ h = .undef ∨ h = .nullv) := by
  refine ⟨rfl, rfl, fun n => ?_, fun h => ?_⟩
  · by_cases hn : n = 0 <;> simp [gstPrologue, JsHandle.truthy, hn]
  · cases h with
    | undef => simp [gstPrologue, JsHandle.truthy]
    | nullv => simp [gstPrologue, JsHandle.truthy]
    | num n => by_cases hn : n = 0 <;> simp [gstPrologue, JsHandle.truthy, hn]

end ExpoGemma
